import Mathlib

/-!
Shallow embedding of the ProductAnalyzer repository (idea-generation pipeline
with a tool-calling agent loop) and proofs of its specified properties.

Python values are modelled by the inductive type PyVal; Python exceptions by
Except with an explicit error type.  Machine-level details that the verified
claims only use through propagation of equalities (the SHA-1 hex digest) are
kept as an explicit function parameter.
-/

namespace ProductAnalyzer

/-- Model of the Python values flowing through the pipeline: None, strings,
integers, lists and dicts (association lists, first binding wins on lookup). -/
inductive PyVal where
  | none : PyVal
  | str (s : String) : PyVal
  | int (n : Int) : PyVal
  | list (xs : List PyVal) : PyVal
  | dict (d : List (String × PyVal)) : PyVal

/-- Model of the Python exceptions the embedded code can raise. -/
inductive PyErr where
  | keyError (k : String) : PyErr
  | valueError (msg : String) : PyErr
  | attributeError : PyErr
deriving DecidableEq, Repr

/-- Python dict.get(k): the stored value, or None when the key is absent. -/
def pyGet (d : List (String × PyVal)) (k : String) : PyVal :=
  match d.find? (fun e => e.1 = k) with
  | Option.some e => e.2
  | Option.none => PyVal.none

/-- Python dict.get(k, default): the stored value, or the default when absent. -/
def pyGetD (d : List (String × PyVal)) (k : String) (default : PyVal) : PyVal :=
  match d.find? (fun e => e.1 = k) with
  | Option.some e => e.2
  | Option.none => default

/-- Python truthiness of a modelled value. -/
def truthy : PyVal → Bool
  | PyVal.none => false
  | PyVal.str s => decide (s ≠ "")
  | PyVal.int n => decide (n ≠ 0)
  | PyVal.list xs => !xs.isEmpty
  | PyVal.dict d => !d.isEmpty

/-- Python `a or b`: the first operand when truthy, otherwise the second. -/
def pyOr (a b : PyVal) : PyVal :=
  if truthy a then a else b

mutual

/-- Python repr of a modelled value (str values are quoted). -/
def pyRepr : PyVal → String
  | PyVal.none => "None"
  | PyVal.str s => "\x27" ++ s ++ "\x27"
  | PyVal.int n => toString n
  | PyVal.list xs => "[" ++ pyReprSeq xs ++ "]"
  | PyVal.dict d => "\x7b" ++ pyReprEntries d ++ "\x7d"

/-- Comma-separated reprs of list elements. -/
def pyReprSeq : List PyVal → String
  | [] => ""
  | [x] => pyRepr x
  | x :: y :: xs => pyRepr x ++ ", " ++ pyReprSeq (y :: xs)

/-- Comma-separated reprs of dict entries. -/
def pyReprEntries : List (String × PyVal) → String
  | [] => ""
  | [e] => "\x27" ++ e.1 ++ "\x27: " ++ pyRepr e.2
  | e :: f :: es => "\x27" ++ e.1 ++ "\x27: " ++ pyRepr e.2 ++ ", " ++ pyReprEntries (f :: es)

end

/-- Python str() of a modelled value: a string is itself, anything else its repr. -/
def pyStr : PyVal → String
  | PyVal.str s => s
  | v => pyRepr v

mutual

/-- Python json.dumps of a modelled value (double quotes, None becomes null). -/
def jsonDumps : PyVal → String
  | PyVal.none => "null"
  | PyVal.str s => "\"" ++ s ++ "\""
  | PyVal.int n => toString n
  | PyVal.list xs => "[" ++ jsonDumpsSeq xs ++ "]"
  | PyVal.dict d => "\x7b" ++ jsonDumpsEntries d ++ "\x7d"

/-- Comma-separated JSON renderings of list elements. -/
def jsonDumpsSeq : List PyVal → String
  | [] => ""
  | [x] => jsonDumps x
  | x :: y :: xs => jsonDumps x ++ ", " ++ jsonDumpsSeq (y :: xs)

/-- Comma-separated JSON renderings of dict entries. -/
def jsonDumpsEntries : List (String × PyVal) → String
  | [] => ""
  | [e] => "\"" ++ e.1 ++ "\": " ++ jsonDumps e.2
  | e :: f :: es => "\"" ++ e.1 ++ "\": " ++ jsonDumps e.2 ++ ", " ++ jsonDumpsEntries (f :: es)

end

/-!
deduplication/checker.py — DeduplicationChecker
-/

/-- Display title selected by DeduplicationChecker._hash_title: for a dict,
idea.get("title") or idea.get("summary") or str(idea); otherwise str(idea).
Returns an AttributeError when the selected title is a truthy non-string
(its .strip() call would fail). -/
def displayTitleE : PyVal → Except PyErr String
  | PyVal.dict d =>
      match pyOr (pyGet d "title") (pyOr (pyGet d "summary") (PyVal.str (pyRepr (PyVal.dict d)))) with
      | PyVal.str s => Except.ok s
      | _ => Except.error PyErr.attributeError
  | v => Except.ok (pyStr v)

/-- Normalization applied by _hash_title: title.strip().lower() — whitespace
trimmed from both ends, then lowercased (spelled out over the character list
so that it evaluates by kernel reduction). -/
def normalizeTitle (t : String) : String :=
  String.mk
    ((((t.data.dropWhile Char.isWhitespace).reverse.dropWhile
        Char.isWhitespace).reverse).map Char.toLower)

/-- DeduplicationChecker._hash_title: SHA-1 hex digest of the normalized display
title.  The digest function sha1 is an explicit parameter: the verified
properties depend on it only through propagation of input equalities. -/
def hash_title (sha1 : String → String) (idea : PyVal) : Except PyErr String :=
  (displayTitleE idea).map (fun t => sha1 (normalizeTitle t))

/-- State of a DeduplicationChecker: the set of seen hashes (modelled as the
list of hashes inserted so far; membership is what the code observes). -/
structure DeduplicationChecker where
  seen_hashes : List String
deriving DecidableEq, Repr

/-- A fresh checker with an empty seen set (DeduplicationChecker.__init__). -/
def DeduplicationChecker.init : DeduplicationChecker :=
  ⟨[]⟩

/-- DeduplicationChecker.add: insert the idea title hash into the seen set. -/
def DeduplicationChecker.add (sha1 : String → String) (c : DeduplicationChecker)
    (idea : PyVal) : Except PyErr DeduplicationChecker :=
  (hash_title sha1 idea).map (fun h => ⟨h :: c.seen_hashes⟩)

/-- DeduplicationChecker.is_duplicate: membership test of the idea title hash;
returned together with the (unchanged) checker state. -/
def DeduplicationChecker.is_duplicate (sha1 : String → String) (c : DeduplicationChecker)
    (idea : PyVal) : Except PyErr (Bool × DeduplicationChecker) :=
  (hash_title sha1 idea).map (fun h => (c.seen_hashes.contains h, c))

/-- Dedup filter loop of AgentOrchestrator.run_agent (orchestrator.py): keep an
idea iff it is not a duplicate, then record it in the checker. -/
def dedupLoop (sha1 : String → String) (c : DeduplicationChecker) :
    List PyVal → Except PyErr (List PyVal × DeduplicationChecker)
  | [] => Except.ok ([], c)
  | idea :: rest =>
      match c.is_duplicate sha1 idea with
      | Except.error e => Except.error e
      | Except.ok r =>
          if r.1 then
            dedupLoop sha1 r.2 rest
          else
            match r.2.add sha1 idea with
            | Except.error e => Except.error e
            | Except.ok c2 =>
                match dedupLoop sha1 c2 rest with
                | Except.error e => Except.error e
                | Except.ok p => Except.ok (idea :: p.1, p.2)

/-- The dedup filter starting from a fresh checker, returning the kept ideas. -/
def dedup (sha1 : String → String) (ideas : List PyVal) : Except PyErr (List PyVal) :=
  (dedupLoop sha1 DeduplicationChecker.init ideas).map (fun r => r.1)

/-!
ideas/composer.py — IdeaComposer
-/

/-- Whether a modelled Python value is a dict (isinstance(raw, dict)). -/
def isDict : PyVal → Bool
  | PyVal.dict _ => true
  | _ => false

/-- Dict payload of a modelled value, when it is a dict. -/
def getDict : PyVal → Option (List (String × PyVal))
  | PyVal.dict d => Option.some d
  | _ => Option.none

/-- Body of the loop in IdeaComposer.compose for one dict-shaped raw idea:
field extraction with fallbacks, the markdown rendering, and the structured
record.  The uuid4 value for the record is passed in as uid. -/
def composeOne (uid : String) (d : List (String × PyVal)) : PyVal :=
  let title := pyOr (pyGet d "title") (pyOr (pyGet d "summary") (PyVal.str "Untitled idea"))
  let problem := pyGetD d "problem" (PyVal.str "")
  let proposal := pyGetD d "proposal" (PyVal.str "")
  let business_value := pyGetD d "business_value" (PyVal.str "")
  let confidence := pyGet d "confidence_score"
  let markdown :=
    "* **" ++ pyStr title ++ "**\n" ++
    "  * Problem: " ++ pyStr problem ++ "\n" ++
    "  * Proposal: " ++ pyStr proposal ++ "\n" ++
    "  * Business Value: " ++ pyStr business_value ++ "\n" ++
    "  * Confidence: " ++ pyStr confidence
  PyVal.dict
    [("id", PyVal.str uid),
     ("title", title),
     ("markdown", PyVal.str markdown),
     ("metadata", PyVal.dict
       [("problem", problem),
        ("proposal", proposal),
        ("business_value", business_value),
        ("confidence_score", confidence)])]

/-- Loop of IdeaComposer.compose: non-dict items are skipped, dict items are
composed in order.  uuid models the stream of uuid4() draws, indexed by how
many records have been emitted so far. -/
def composeGo (uuid : Nat → String) : Nat → List PyVal → List PyVal
  | _, [] => []
  | k, PyVal.dict d :: rest => composeOne (uuid k) d :: composeGo uuid (k + 1) rest
  | k, PyVal.none :: rest => composeGo uuid k rest
  | k, PyVal.str _ :: rest => composeGo uuid k rest
  | k, PyVal.int _ :: rest => composeGo uuid k rest
  | k, PyVal.list _ :: rest => composeGo uuid k rest

/-- IdeaComposer.compose. -/
def compose (uuid : Nat → String) (ideas : List PyVal) : List PyVal :=
  composeGo uuid 0 ideas

/-!
agent_orchestrator.py — tool functions, TOOLS registry, dispatch
-/

/-- Result of executing a tool function: its return value or raised exception,
together with the list of network operations it performed. -/
structure ToolOutput where
  ret : Except PyErr PyVal
  net : List String

/-- Oracles standing for the external world the tools talk to: the documents a
roadmap crawl returns, the issues a Jira search returns, and the parsed
competitor list a chat completion returns. -/
structure NetOracle where
  roadmap_docs : String → List PyVal
  jira_issues : String → PyVal → List PyVal
  competitors : PyVal → PyVal → PyVal

/-- agent_orchestrator._tool_fetch_roadmap: requires a truthy roadmap_url
parameter, then crawls the roadmap (one network operation).  A non-dict params
value or a truthy non-string URL raises AttributeError, as the Python
attribute accesses would. -/
def tool_fetch_roadmap (O : NetOracle) (params : PyVal) : ToolOutput :=
  match params with
  | PyVal.dict d =>
      let url := pyGet d "roadmap_url"
      if truthy url then
        match url with
        | PyVal.str u =>
            { ret := Except.ok (PyVal.list (O.roadmap_docs u)), net := ["GET " ++ u] }
        | _ => { ret := Except.error PyErr.attributeError, net := [] }
      else
        { ret := Except.error (PyErr.valueError "Parameter \x27roadmap_url\x27 is required"),
          net := [] }
  | _ => { ret := Except.error PyErr.attributeError, net := [] }

/-- agent_orchestrator._tool_fetch_jira: requires a truthy jql parameter,
defaults max_results to 50, then queries Jira (one network operation). -/
def tool_fetch_jira (O : NetOracle) (params : PyVal) : ToolOutput :=
  match params with
  | PyVal.dict d =>
      let jql := pyGet d "jql"
      if truthy jql then
        let max_results := pyGetD d "max_results" (PyVal.int 50)
        { ret := Except.ok (PyVal.list (O.jira_issues (pyStr jql) max_results)),
          net := ["GET jira search " ++ pyStr jql] }
      else
        { ret := Except.error (PyErr.valueError "Parameter \x27jql\x27 is required"),
          net := [] }
  | _ => { ret := Except.error PyErr.attributeError, net := [] }

/-- retrievers/competitor_scraper.fetch_competitors: requires a truthy
product_name parameter, defaults max_results to 5, then asks the chat backend
for competitors (one network operation). -/
def fetch_competitors (O : NetOracle) (params : PyVal) : ToolOutput :=
  match params with
  | PyVal.dict d =>
      let product := pyGet d "product_name"
      if truthy product then
        let max_res := pyGetD d "max_results" (PyVal.int 5)
        { ret := Except.ok (O.competitors product max_res),
          net := ["POST chat.completions competitors"] }
      else
        { ret := Except.error (PyErr.valueError "Parameter \x27product_name\x27 is required"),
          net := [] }
  | _ => { ret := Except.error PyErr.attributeError, net := [] }

/-- The TOOLS registry of agent_orchestrator.py. -/
def TOOLS (O : NetOracle) : List (String × (PyVal → ToolOutput)) :=
  [("fetch_roadmap", tool_fetch_roadmap O),
   ("fetch_jira", tool_fetch_jira O),
   ("fetch_competitors", fetch_competitors O)]

/-- The dispatch TOOLS[name](args) in AgentOrchestrator.run: a Python dict
lookup, raising KeyError when the name is not registered; no tool function
runs and no network operation happens in that case. -/
def invokeTool (O : NetOracle) (name : String) (args : PyVal) : ToolOutput :=
  match (TOOLS O).find? (fun e => e.1 = name) with
  | Option.some e => e.2 args
  | Option.none => { ret := Except.error (PyErr.keyError name), net := [] }

/-!
agent_orchestrator.py — AgentOrchestrator.run control loop
-/

/-- One remote chat-completion response, as the loop inspects it: either a
function call (arguments modelled after JSON parsing) or a plain final
message. -/
inductive RemoteMsg where
  | function_call (name : String) (args : PyVal) : RemoteMsg
  | text (content : String) : RemoteMsg

/-- Whether a remote response is a tool call (msg.function_call is set). -/
def isToolCallResponse : RemoteMsg → Bool
  | RemoteMsg.function_call _ _ => true
  | RemoteMsg.text _ => false

/-- Conversation messages the loop appends: the seed system/user pair, an
assistant message carrying a function_call (content None), and a
role-function result message. -/
inductive Msg where
  | system (content : String) : Msg
  | user (content : String) : Msg
  | assistant_call (name : String) (argumentsJson : String) : Msg
  | function_result (name : String) (content : String) : Msg
deriving DecidableEq, Repr

/-- How one run of the loop ended: a final printed response, the step ceiling
exhausted (the for-loop ran out, a normal return), or a raised exception. -/
inductive LoopOutcome where
  | final (content : String) : LoopOutcome
  | stepLimit : LoopOutcome
  | raised (e : PyErr) : LoopOutcome
deriving DecidableEq, Repr

/-- Observable result of a run of the control loop: how many remote calls were
issued, the conversation as sent at each remote call, the final conversation,
and the outcome. -/
structure LoopResult where
  calls : Nat
  traces : List (List Msg)
  msgs : List Msg
  outcome : LoopOutcome

/-- The for-loop body of AgentOrchestrator.run: at most fuel iterations; each
iteration issues one remote call (response indexed by i), then either returns
on a final response, or executes the named tool and appends the
assistant-call / function-result pair before looping.  A tool exception
propagates (the loop has no handler around the dispatch). -/
def runLoop (O : NetOracle) (responses : Nat → RemoteMsg) :
    Nat → Nat → List Msg → LoopResult
  | 0, _, msgs => { calls := 0, traces := [], msgs := msgs, outcome := LoopOutcome.stepLimit }
  | fuel + 1, i, msgs =>
      match responses i with
      | RemoteMsg.text c =>
          { calls := 1, traces := [msgs], msgs := msgs, outcome := LoopOutcome.final c }
      | RemoteMsg.function_call name args =>
          match (invokeTool O name args).ret with
          | Except.error e =>
              { calls := 1, traces := [msgs], msgs := msgs, outcome := LoopOutcome.raised e }
          | Except.ok result =>
              let msgs2 := msgs ++
                [Msg.assistant_call name (jsonDumps args),
                 Msg.function_result name (jsonDumps result)]
              let r := runLoop O responses fuel (i + 1) msgs2
              { calls := r.calls + 1, traces := msgs :: r.traces,
                msgs := r.msgs, outcome := r.outcome }

/-- The seed conversation of AgentOrchestrator.run. -/
def initialMessages (goal : String) : List Msg :=
  [Msg.system "You are an AI agent that plans and executes tools to achieve a user goal.",
   Msg.user goal]

/-- One invocation of the body of AgentOrchestrator.run (step ceiling 5). -/
def run (O : NetOracle) (responses : Nat → RemoteMsg) (goal : String) : LoopResult :=
  runLoop O responses 5 0 (initialMessages goal)

/-!
tenacity retry decorator — @retry(stop=stop_after_attempt(4),
wait=wait_random_exponential(min=1, max=10)) on AgentOrchestrator.run and
generate_new_ideas (wall-clock waits are not modelled)
-/

/-- Failures a remote chat-completion call can raise. -/
inductive RemoteErr where
  | timeout : RemoteErr
  | rateLimit : RemoteErr
  | serverError (code : Nat) : RemoteErr
  | authError : RemoteErr
  | badRequest : RemoteErr
deriving DecidableEq, Repr

/-- Transient failure classes named by the spec: timeouts, 5xx-class
responses, explicit rate-limit signals. -/
def transientErr : RemoteErr → Bool
  | RemoteErr.timeout => true
  | RemoteErr.rateLimit => true
  | RemoteErr.serverError _ => true
  | RemoteErr.authError => false
  | RemoteErr.badRequest => false

/-- Result of a tenacity-wrapped call: the wrapped value, or tenacity's
RetryError carrying the last exception after the stop condition hit. -/
inductive RetryOutcome (A : Type) where
  | success (a : A) : RetryOutcome A
  | retryError (last : RemoteErr) : RetryOutcome A
deriving DecidableEq

/-- Attempt loop of tenacity: run attempt k of callee; on success return it,
on any exception retry while attempts remain (tenacity retries every
exception by default), else wrap the last exception.  Also counts the total
number of attempts made. -/
def retryGo {A : Type} (callee : Nat → Except RemoteErr A) (k : Nat) :
    Nat → RetryOutcome A × Nat
  | 0 =>
      match callee k with
      | Except.ok a => (RetryOutcome.success a, 1)
      | Except.error e => (RetryOutcome.retryError e, 1)
  | r + 1 =>
      match callee k with
      | Except.ok a => (RetryOutcome.success a, 1)
      | Except.error _ =>
          let p := retryGo callee (k + 1) r
          (p.1, p.2 + 1)

/-- A call wrapped by @retry(stop=stop_after_attempt(stopAfter)): the callee
gives each attempt's outcome, 0-indexed. -/
def tenacityCall {A : Type} (stopAfter : Nat) (callee : Nat → Except RemoteErr A) :
    RetryOutcome A × Nat :=
  retryGo callee 0 (stopAfter - 1)

/-!
orchestrator.py — require_env and process startup; jira_retriever.py
module-level environment check
-/

/-- Python os.getenv over a modelled environment. -/
def getenv (env : List (String × String)) (k : String) : Option String :=
  (env.find? (fun e => e.1 = k)).map (fun e => e.2)

/-- Truthiness of an environment value: present and non-empty. -/
def envTruthy (env : List (String × String)) (k : String) : Bool :=
  match getenv env k with
  | Option.some s => decide (s ≠ "")
  | Option.none => false

/-- Python sep.join(l). -/
def pyJoin (sep : String) : List String → String
  | [] => ""
  | [x] => x
  | x :: y :: xs => x ++ sep ++ pyJoin sep (y :: xs)

/-- The required keys orchestrator.main passes to require_env. -/
def REQUIRED_KEYS : List String :=
  ["JIRA_URL", "JIRA_PROJECT_KEY", "JIRA_AUTH_TOKEN", "OPENAI_API_KEY", "ROADMAP_URL"]

/-- The keys of a list that are missing (unset or empty) in the environment. -/
def missingKeys (env : List (String × String)) (keys : List String) : List String :=
  keys.filter (fun k => !envTruthy env k)

/-- orchestrator.require_env: collect the missing keys; when any, report them
all in one message and exit. -/
def require_env (keys : List String) (env : List (String × String)) : Except String Unit :=
  let missing := missingKeys env keys
  if missing.isEmpty then
    Except.ok ()
  else
    Except.error ("Missing required environment variables: " ++ pyJoin ", " missing)

/-- Module-level check of retrievers/jira_retriever.py, executed when the
module is imported: raises EnvironmentError with a fixed message when
JIRA_URL or JIRA_AUTH_TOKEN is unset or empty. -/
def jiraModuleCheck (env : List (String × String)) : Except String Unit :=
  if !envTruthy env "JIRA_URL" || !envTruthy env "JIRA_AUTH_TOKEN" then
    Except.error "JIRA_URL and JIRA_AUTH_TOKEN must be set"
  else
    Except.ok ()

/-- Startup of orchestrator.py up to the first network call: importing the
module runs the jira_retriever module-level check, then main() runs
require_env; only after both succeed does run_agent reach the network. -/
def mainStartup (env : List (String × String)) : Except String Unit :=
  match jiraModuleCheck env with
  | Except.error e => Except.error e
  | Except.ok _ => require_env REQUIRED_KEYS env

/-- Whether need occurs as a substring of hay. -/
def containsSub (hay need : String) : Bool :=
  hay.toList.tails.any (fun t => need.toList.isPrefixOf t)

/-- A trivial external world for concrete runs: empty crawl results, empty
issue lists, a None competitor payload. -/
def trivialOracle : NetOracle :=
  { roadmap_docs := fun _ => [],
    jira_issues := fun _ _ => [],
    competitors := fun _ _ => PyVal.none }

/-!
Theorems
-/

/-- Claim C3, as stated by the spec: a call that keeps failing with a
non-transient error (unauthorized request) is never retried and propagates on
the first attempt, so exactly one attempt is made. -/
def claimC3 : Prop :=
  ∀ (callee : Nat → Except RemoteErr PyVal),
    (∀ k, callee k = Except.error RemoteErr.authError) →
    (tenacityCall 4 callee).2 = 1

/-- Claim C3 is false on the code: tenacity is configured with only a stop
condition, so its default predicate retries every exception; a callee that
always raises an authorization error is attempted 4 times, not once. -/
theorem c3_counterexample : ¬ claimC3 := by
  intro h
  have h4 := h (fun _ => Except.error RemoteErr.authError) (fun _ => rfl)
  exact absurd h4 (by decide)

/-- Claim C3 amended: every exception, transient or not, is retried alike;
after 4 failed attempts the wrapped call raises a retry-exhausted error
carrying the last exception, having made exactly 4 attempts. -/
theorem c3_all_exceptions_retried
    (callee : Nat → Except RemoteErr PyVal) (e0 e1 e2 e3 : RemoteErr)
    (h0 : callee 0 = Except.error e0) (h1 : callee 1 = Except.error e1)
    (h2 : callee 2 = Except.error e2) (h3 : callee 3 = Except.error e3) :
    tenacityCall 4 callee = (RetryOutcome.retryError e3, 4) := by
  simp [tenacityCall, retryGo, h0, h1, h2, h3]

/-- Concrete instance of c3_all_exceptions_retried: the constant
authorization failure is attempted 4 times and ends in a retry error. -/
theorem c3_all_exceptions_retried_witness :
    tenacityCall 4 (fun _ => (Except.error RemoteErr.authError : Except RemoteErr PyVal)) =
      (RetryOutcome.retryError RemoteErr.authError, 4) :=
  c3_all_exceptions_retried (fun _ => Except.error RemoteErr.authError)
    RemoteErr.authError RemoteErr.authError RemoteErr.authError RemoteErr.authError
    rfl rfl rfl rfl

/-- Each retry loop with r remaining retries makes at most r + 1 attempts. -/
theorem retryGo_count_le {A : Type} (callee : Nat → Except RemoteErr A) :
    ∀ (r k : Nat), (retryGo callee k r).2 ≤ r + 1 := by
  intro r
  induction r with
  | zero =>
      intro k
      cases hc : callee k <;> simp [retryGo, hc]
  | succ r ih =>
      intro k
      cases hc : callee k with
      | ok a => simp [retryGo, hc]
      | error e =>
          simp only [retryGo, hc]
          have := ih (k + 1)
          omega

/-- Claim C4: the retrying caller makes at most 4 attempts per call, and a
callee failing transiently on attempts 1-3 and succeeding on attempt 4 yields
the attempt-4 success result without raising, after exactly 4 attempts. -/
theorem c4_retry_success_on_fourth
    (A : Type) (callee : Nat → Except RemoteErr A) (a : A) (e0 e1 e2 : RemoteErr)
    (_ht0 : transientErr e0 = true) (_ht1 : transientErr e1 = true)
    (_ht2 : transientErr e2 = true)
    (h0 : callee 0 = Except.error e0) (h1 : callee 1 = Except.error e1)
    (h2 : callee 2 = Except.error e2) (h3 : callee 3 = Except.ok a) :
    tenacityCall 4 callee = (RetryOutcome.success a, 4) ∧
      ∀ (c2 : Nat → Except RemoteErr A), (tenacityCall 4 c2).2 ≤ 4 := by
  constructor
  · simp [tenacityCall, retryGo, h0, h1, h2, h3]
  · intro c2
    exact retryGo_count_le c2 3 0

/-- Concrete instance of c4_retry_success_on_fourth: three timeouts then a
success returns the success after 4 attempts. -/
theorem c4_retry_success_on_fourth_witness :
    tenacityCall 4 (fun k => if k < 3 then Except.error RemoteErr.timeout
        else Except.ok (PyVal.int 7)) = (RetryOutcome.success (PyVal.int 7), 4) ∧
      ∀ (c2 : Nat → Except RemoteErr PyVal), (tenacityCall 4 c2).2 ≤ 4 :=
  c4_retry_success_on_fourth PyVal
    (fun k => if k < 3 then Except.error RemoteErr.timeout else Except.ok (PyVal.int 7))
    (PyVal.int 7) RemoteErr.timeout RemoteErr.timeout RemoteErr.timeout
    rfl rfl rfl rfl rfl rfl rfl

/-- Claim C8: the fingerprint is a pure function of the normalized display
title — any two ideas whose display titles normalize equally get equal
fingerprints, whatever their other fields; in particular the dict titled
"  My Idea  " and the bare string "my idea" collide. -/
theorem c8_fingerprint_pure_in_title (sha1 : String → String) :
    (∀ (x y : PyVal) (sx sy : String),
        displayTitleE x = Except.ok sx → displayTitleE y = Except.ok sy →
        normalizeTitle sx = normalizeTitle sy →
        hash_title sha1 x = hash_title sha1 y) ∧
      hash_title sha1 (PyVal.dict [("title", PyVal.str "  My Idea  ")]) =
        hash_title sha1 (PyVal.str "my idea") := by
  constructor
  · intro x y sx sy hx hy hn
    simp only [hash_title, hx, hy, Except.map]
    rw [hn]
  · have hx : displayTitleE (PyVal.dict [("title", PyVal.str "  My Idea  ")]) =
        Except.ok "  My Idea  " := rfl
    have hy : displayTitleE (PyVal.str "my idea") = Except.ok "my idea" := rfl
    simp only [hash_title, hx, hy, Except.map]
    rw [show normalizeTitle "  My Idea  " = normalizeTitle "my idea" from by decide]

/-- Concrete instance of c8_fingerprint_pure_in_title with the identity digest:
the two display titles normalize equally, so the fingerprints agree. -/
theorem c8_fingerprint_pure_in_title_witness :
    displayTitleE (PyVal.dict [("title", PyVal.str "  My Idea  ")]) =
        Except.ok "  My Idea  " ∧
      hash_title id (PyVal.dict [("title", PyVal.str "  My Idea  ")]) =
        hash_title id (PyVal.str "my idea") :=
  ⟨rfl,
   (c8_fingerprint_pure_in_title id).1
     (PyVal.dict [("title", PyVal.str "  My Idea  ")]) (PyVal.str "my idea")
     "  My Idea  " "my idea" rfl rfl (by decide)⟩

/-- Claim C9: dispatching a tool name that is not registered fails with the
unknown-tool condition (Python KeyError from the TOOLS dict lookup) and
performs no network operation — no tool function runs at all. -/
theorem c9_unknown_tool_no_network
    (O : NetOracle) (name : String) (args : PyVal)
    (hmem : name ∉ (TOOLS O).map Prod.fst) :
    invokeTool O name args =
      { ret := Except.error (PyErr.keyError name), net := [] } := by
  have hfind : (TOOLS O).find? (fun e => e.1 = name) = Option.none := by
    apply List.find?_eq_none.mpr
    intro e he
    simp only [decide_eq_true_eq]
    intro hEq
    exact hmem (hEq ▸ List.mem_map_of_mem Prod.fst he)
  simp [invokeTool, hfind]

/-- Concrete instance of c9_unknown_tool_no_network: the name bogus is not in
the registry, the dispatch yields KeyError and an empty network trace. -/
theorem c9_unknown_tool_no_network_witness :
    invokeTool trivialOracle "bogus" PyVal.none =
      { ret := Except.error (PyErr.keyError "bogus"), net := [] } :=
  c9_unknown_tool_no_network trivialOracle "bogus" PyVal.none (by decide)

/-- Claim C10: right after add(x), is_duplicate(y) answers true for every y
whose fingerprint equals that of x; and is_duplicate never modifies the seen
set (the state it returns is the state it was given). -/
theorem c10_add_then_is_duplicate (sha1 : String → String) :
    (∀ (c c2 : DeduplicationChecker) (x y : PyVal) (f : String),
        hash_title sha1 x = Except.ok f → hash_title sha1 y = Except.ok f →
        DeduplicationChecker.add sha1 c x = Except.ok c2 →
        DeduplicationChecker.is_duplicate sha1 c2 y = Except.ok (true, c2)) ∧
      ∀ (d d2 : DeduplicationChecker) (z : PyVal) (b : Bool),
        DeduplicationChecker.is_duplicate sha1 d z = Except.ok (b, d2) → d2 = d := by
  constructor
  · intro c c2 x y f hx hy hadd
    simp only [DeduplicationChecker.add, hx, Except.map, Except.ok.injEq] at hadd
    subst hadd
    simp [DeduplicationChecker.is_duplicate, hy, Except.map]
  · intro d d2 z b h
    cases hz : hash_title sha1 z with
    | ok f =>
        simp only [DeduplicationChecker.is_duplicate, hz, Except.map,
          Except.ok.injEq, Prod.mk.injEq] at h
        exact h.2.symm
    | error e =>
        simp only [DeduplicationChecker.is_duplicate, hz, Except.map] at h
        exact absurd h (by simp)

/-- Concrete instance of c10_add_then_is_duplicate: add the dict titled
"  My Idea  " to a fresh checker, then the string "my idea" is reported a
duplicate, with the state unchanged by the query. -/
theorem c10_add_then_is_duplicate_witness :
    DeduplicationChecker.is_duplicate id ⟨["my idea"]⟩ (PyVal.str "my idea") =
      Except.ok (true, (⟨["my idea"]⟩ : DeduplicationChecker)) :=
  (c10_add_then_is_duplicate id).1 DeduplicationChecker.init ⟨["my idea"]⟩
    (PyVal.dict [("title", PyVal.str "  My Idea  ")]) (PyVal.str "my idea")
    "my idea" rfl rfl rfl

/-- Invariant of the dedup filter loop: the kept ideas are a subsequence of
the input, each kept idea has a fingerprint not already in the starting seen
set, and the kept ideas have pairwise distinct fingerprints. -/
theorem dedupLoop_spec (sha1 : String → String) :
    ∀ (l : List PyVal) (c : DeduplicationChecker) (out : List PyVal)
      (c2 : DeduplicationChecker),
      dedupLoop sha1 c l = Except.ok (out, c2) →
      out.Sublist l ∧
        (∀ a ∈ out, ∃ f, hash_title sha1 a = Except.ok f ∧ f ∉ c.seen_hashes) ∧
        out.Pairwise (fun a b => hash_title sha1 a ≠ hash_title sha1 b) := by
  intro l
  induction l with
  | nil =>
      intro c out c2 h
      simp only [dedupLoop, Except.ok.injEq, Prod.mk.injEq] at h
      obtain ⟨h1, _h2⟩ := h
      subst h1
      simp
  | cons idea rest ih =>
      intro c out c2 h
      cases hh : hash_title sha1 idea with
      | error e =>
          have hdup : DeduplicationChecker.is_duplicate sha1 c idea = Except.error e := by
            simp [DeduplicationChecker.is_duplicate, hh, Except.map]
          simp only [dedupLoop, hdup] at h
          exact Except.noConfusion h
      | ok f =>
          have hdup : DeduplicationChecker.is_duplicate sha1 c idea =
              Except.ok (c.seen_hashes.contains f, c) := by
            simp [DeduplicationChecker.is_duplicate, hh, Except.map]
          simp only [dedupLoop, hdup] at h
          cases hc : c.seen_hashes.contains f with
          | true =>
              simp only [hc, if_true] at h
              obtain ⟨hsub, hfresh, hpw⟩ := ih c out c2 h
              exact ⟨hsub.cons idea, hfresh, hpw⟩
          | false =>
              simp only [hc, if_false, Bool.false_eq_true] at h
              have hadd : DeduplicationChecker.add sha1 c idea =
                  Except.ok ⟨f :: c.seen_hashes⟩ := by
                simp [DeduplicationChecker.add, hh, Except.map]
              simp only [hadd] at h
              cases hrec : dedupLoop sha1 ⟨f :: c.seen_hashes⟩ rest with
              | error e =>
                  simp only [hrec] at h
                  exact Except.noConfusion h
              | ok p =>
                  simp only [hrec, Except.ok.injEq, Prod.mk.injEq] at h
                  obtain ⟨h1, _h2⟩ := h
                  subst h1
                  obtain ⟨hsub, hfresh, hpw⟩ := ih ⟨f :: c.seen_hashes⟩ p.1 p.2 hrec
                  have hfnot : f ∉ c.seen_hashes := by
                    simp [List.contains] at hc
                    exact hc
                  refine ⟨hsub.cons₂ idea, ?_, ?_⟩
                  · intro a ha
                    rcases List.mem_cons.mp ha with hEq | hmem
                    · exact ⟨f, hEq ▸ hh, hfnot⟩
                    · obtain ⟨fa, hfa, hnot⟩ := hfresh a hmem
                      exact ⟨fa, hfa, fun hmem2 => hnot (List.mem_cons_of_mem f hmem2)⟩
                  · refine List.pairwise_cons.mpr ⟨?_, hpw⟩
                    intro b hb hEq
                    obtain ⟨fb, hfb, hnot⟩ := hfresh b hb
                    rw [hh, hfb] at hEq
                    have : f = fb := Except.ok.inj hEq
                    exact hnot (this ▸ List.mem_cons_self f c.seen_hashes)

/-- Claim C5: the dedup filter output has no two ideas with equal normalized
title fingerprints, and it is a subsequence of its input — kept ideas stay in
arrival order and are only dropped, never mutated. -/
theorem c5_dedup_distinct_and_sublist (sha1 : String → String)
    (I out : List PyVal) (h : dedup sha1 I = Except.ok out) :
    out.Pairwise (fun a b => hash_title sha1 a ≠ hash_title sha1 b) ∧
      out.Sublist I := by
  unfold dedup at h
  cases hloop : dedupLoop sha1 DeduplicationChecker.init I with
  | error e => simp [hloop, Except.map] at h
  | ok p =>
      simp only [hloop, Except.map, Except.ok.injEq] at h
      subst h
      obtain ⟨hsub, _hfresh, hpw⟩ :=
        dedupLoop_spec sha1 I DeduplicationChecker.init p.1 p.2 hloop
      exact ⟨hpw, hsub⟩

/-- Concrete instance of c5_dedup_distinct_and_sublist: with the identity
digest, an input whose second idea repeats the first title up to case and
whitespace is filtered to the first and third ideas, in order. -/
theorem c5_dedup_distinct_and_sublist_witness :
    dedup id [PyVal.dict [("title", PyVal.str "A")],
        PyVal.dict [("title", PyVal.str " a ")], PyVal.str "B"] =
      Except.ok [PyVal.dict [("title", PyVal.str "A")], PyVal.str "B"] ∧
      ([PyVal.dict [("title", PyVal.str "A")], PyVal.str "B"].Pairwise
          (fun a b => hash_title id a ≠ hash_title id b) ∧
        [PyVal.dict [("title", PyVal.str "A")], PyVal.str "B"].Sublist
          [PyVal.dict [("title", PyVal.str "A")],
           PyVal.dict [("title", PyVal.str " a ")], PyVal.str "B"]) :=
  ⟨rfl,
   c5_dedup_distinct_and_sublist id
     [PyVal.dict [("title", PyVal.str "A")],
      PyVal.dict [("title", PyVal.str " a ")], PyVal.str "B"]
     [PyVal.dict [("title", PyVal.str "A")], PyVal.str "B"] rfl⟩

/-- The dicts kept by filterMap getDict count exactly the dict-shaped items. -/
theorem length_filterMap_getDict :
    ∀ l : List PyVal, (l.filterMap getDict).length = l.countP isDict := by
  intro l
  induction l with
  | nil => simp
  | cons x rest ih =>
      cases x <;> simp [getDict, isDict, List.countP_cons, ih]

/-- The compose loop emits one composed record per dict-shaped input, in input
order, drawing uuids in emission order. -/
theorem composeGo_eq (uuid : Nat → String) :
    ∀ (l : List PyVal) (k : Nat),
      composeGo uuid k l =
        ((l.filterMap getDict).enumFrom k).map
          (fun p => composeOne (uuid p.1) p.2) := by
  intro l
  induction l with
  | nil => intro k; simp [composeGo]
  | cons x rest ih =>
      intro k
      cases x with
      | dict d =>
          simp [composeGo, getDict, List.enumFrom_cons, ih]
      | none => simp [composeGo, getDict, ih]
      | str s => simp [composeGo, getDict, ih]
      | int n => simp [composeGo, getDict, ih]
      | list xs => simp [composeGo, getDict, ih]

/-- Claim C7: compose returns exactly one composed idea per dict-shaped input,
in order; every non-dict input (None, string, number) is silently skipped, so
the output length is the number of dict-shaped inputs; on the example input
with one dict titled Valid, the single output carries title Valid. -/
theorem c7_compose_skips_non_dicts (uuid : Nat → String) (ideas : List PyVal) :
    (compose uuid ideas).length = ideas.countP isDict ∧
      compose uuid ideas =
        ((ideas.filterMap getDict).enum).map (fun p => composeOne (uuid p.1) p.2) ∧
      compose uuid
          [PyVal.none, PyVal.dict [("title", PyVal.str "Valid")],
           PyVal.str "text", PyVal.int 42] =
        [composeOne (uuid 0) [("title", PyVal.str "Valid")]] ∧
      ∃ d, compose uuid
            [PyVal.none, PyVal.dict [("title", PyVal.str "Valid")],
             PyVal.str "text", PyVal.int 42] = [PyVal.dict d] ∧
          pyGet d "title" = PyVal.str "Valid" := by
  refine ⟨?_, ?_, rfl, ⟨_, rfl, rfl⟩⟩
  · rw [compose, composeGo_eq uuid ideas 0, List.length_map, List.enumFrom_length]
    exact length_filterMap_getDict ideas
  · rw [compose, composeGo_eq uuid ideas 0, List.enum]

/-- A string is reported as a substring whenever its character list is an
infix of the target string's character list. -/
theorem containsSub_intro (hay need : String)
    (h : List.IsInfix need.toList hay.toList) : containsSub hay need = true := by
  rcases List.infix_iff_prefix_suffix.mp h with ⟨t, hpre, hsuf⟩
  unfold containsSub
  rw [List.any_eq_true]
  exact ⟨t, (List.mem_tails _ _).mpr hsuf, List.isPrefixOf_iff_prefix.mpr hpre⟩

/-- Every element of a joined key list occurs inside the joined string. -/
theorem join_contains_key :
    ∀ (l : List String) (k : String), k ∈ l →
      List.IsInfix k.toList (pyJoin ", " l).toList := by
  intro l
  induction l with
  | nil =>
      intro k hk
      exact absurd hk (List.not_mem_nil k)
  | cons x xs ih =>
      intro k hk
      cases xs with
      | nil =>
          have hkx : k = x := by simpa using hk
          subst hkx
          exact List.infix_rfl
      | cons y ys =>
          have h1 : (pyJoin ", " (x :: y :: ys)).toList =
              (x ++ ", ").toList ++ (pyJoin ", " (y :: ys)).toList := by
            rw [show pyJoin ", " (x :: y :: ys) =
              (x ++ ", ") ++ pyJoin ", " (y :: ys) from rfl]
            exact String.data_append _ _
          rcases List.mem_cons.mp hk with hEq | hmem
          · have h2 : (x ++ ", ").toList = x.toList ++ (", " : String).toList :=
              String.data_append _ _
            rw [hEq, h1, h2, List.append_assoc]
            exact (List.prefix_append _ _).isInfix
          · rw [h1]
            exact (ih k hmem).trans (List.suffix_append _ _).isInfix

/-- Claim C6, as stated by the spec: whenever required configuration values
are missing, startup fails before any network call with one message that
mentions every missing required key. -/
def claimC6 : Prop :=
  ∀ env : List (String × String),
    missingKeys env REQUIRED_KEYS ≠ [] →
    ∃ msg, mainStartup env = Except.error msg ∧
      ∀ k ∈ missingKeys env REQUIRED_KEYS, containsSub msg k = true

/-- Claim C6 is false on the code: with JIRA_URL and OPENAI_API_KEY both
missing, the module-level check in the Jira retriever fails first, at import
time, with a fixed message that never mentions OPENAI_API_KEY. -/
theorem c6_counterexample : ¬ claimC6 := by
  intro h
  obtain ⟨msg, hmsg, hall⟩ :=
    h [("JIRA_PROJECT_KEY", "P"), ("JIRA_AUTH_TOKEN", "t"), ("ROADMAP_URL", "r")]
      (by decide)
  have hm : msg = "JIRA_URL and JIRA_AUTH_TOKEN must be set" :=
    (Except.error.inj hmsg.symm)
  have hk := hall "OPENAI_API_KEY" (by decide)
  rw [hm] at hk
  exact absurd hk (by decide)

/-- Claim C6 amended: startup still fails fast before any network call when a
required value is missing, but the single message listing every missing key
is only produced when JIRA_URL and JIRA_AUTH_TOKEN are both set — otherwise
the import-time check fails first with a fixed message naming only those two
keys. -/
theorem c6_fail_fast_and_listing (env : List (String × String))
    (hmiss : missingKeys env REQUIRED_KEYS ≠ []) :
    (∃ msg, mainStartup env = Except.error msg) ∧
      (envTruthy env "JIRA_URL" = true → envTruthy env "JIRA_AUTH_TOKEN" = true →
        mainStartup env =
          Except.error ("Missing required environment variables: " ++
            pyJoin ", " (missingKeys env REQUIRED_KEYS)) ∧
        ∀ k ∈ missingKeys env REQUIRED_KEYS,
          containsSub ("Missing required environment variables: " ++
            pyJoin ", " (missingKeys env REQUIRED_KEYS)) k = true) := by
  cases hu : envTruthy env "JIRA_URL" with
  | false =>
      refine ⟨⟨"JIRA_URL and JIRA_AUTH_TOKEN must be set", ?_⟩, ?_⟩
      · simp [mainStartup, jiraModuleCheck, hu]
      · intro hu2
        exact absurd hu2 (by decide)
  | true =>
      cases ha : envTruthy env "JIRA_AUTH_TOKEN" with
      | false =>
          refine ⟨⟨"JIRA_URL and JIRA_AUTH_TOKEN must be set", ?_⟩, ?_⟩
          · simp [mainStartup, jiraModuleCheck, hu, ha]
          · intro _ ha2
            exact absurd ha2 (by decide)
      | true =>
          have hok : jiraModuleCheck env = Except.ok () := by
            simp [jiraModuleCheck, hu, ha]
          have hne : (missingKeys env REQUIRED_KEYS).isEmpty = false := by
            cases hm : missingKeys env REQUIRED_KEYS with
            | nil => exact absurd hm hmiss
            | cons a l => simp
          have hmain : mainStartup env =
              Except.error ("Missing required environment variables: " ++
                pyJoin ", " (missingKeys env REQUIRED_KEYS)) := by
            simp [mainStartup, hok, require_env, hne]
          refine ⟨⟨_, hmain⟩, fun _ _ => ⟨hmain, ?_⟩⟩
          intro k hk
          apply containsSub_intro
          have h1 : ("Missing required environment variables: " ++
              pyJoin ", " (missingKeys env REQUIRED_KEYS)).toList =
              ("Missing required environment variables: " : String).toList ++
                (pyJoin ", " (missingKeys env REQUIRED_KEYS)).toList :=
            String.data_append _ _
          rw [h1]
          exact (join_contains_key _ k hk).trans (List.suffix_append _ _).isInfix

/-- Concrete instance of c6_fail_fast_and_listing: with only OPENAI_API_KEY
missing, startup fails with the require_env message, which mentions the
missing key. -/
theorem c6_fail_fast_and_listing_witness :
    mainStartup
        [("JIRA_URL", "u"), ("JIRA_PROJECT_KEY", "P"), ("JIRA_AUTH_TOKEN", "t"),
         ("ROADMAP_URL", "r")] =
      Except.error ("Missing required environment variables: " ++
        pyJoin ", " (missingKeys
          [("JIRA_URL", "u"), ("JIRA_PROJECT_KEY", "P"), ("JIRA_AUTH_TOKEN", "t"),
           ("ROADMAP_URL", "r")] REQUIRED_KEYS)) :=
  ((c6_fail_fast_and_listing
      [("JIRA_URL", "u"), ("JIRA_PROJECT_KEY", "P"), ("JIRA_AUTH_TOKEN", "t"),
       ("ROADMAP_URL", "r")] (by decide)).2 (by decide) (by decide)).1

/-- When every response in the window is a tool call whose invocation
succeeds, the loop runs through its whole fuel budget, issuing exactly one
remote call per iteration, and ends by falling off the loop (a normal
return). -/
theorem runLoop_all_tool_success (O : NetOracle) (responses : Nat → RemoteMsg) :
    ∀ (fuel i : Nat) (msgs : List Msg),
      (∀ j, j < fuel → ∃ name args result,
        responses (i + j) = RemoteMsg.function_call name args ∧
          (invokeTool O name args).ret = Except.ok result) →
      (runLoop O responses fuel i msgs).calls = fuel ∧
        (runLoop O responses fuel i msgs).outcome = LoopOutcome.stepLimit := by
  intro fuel
  induction fuel with
  | zero =>
      intro i msgs _h
      exact ⟨rfl, rfl⟩
  | succ fuel ih =>
      intro i msgs h
      obtain ⟨name, args, result, hresp, hok⟩ := h 0 (Nat.succ_pos fuel)
      rw [Nat.add_zero] at hresp
      have ih2 := ih (i + 1)
        (msgs ++ [Msg.assistant_call name (jsonDumps args),
          Msg.function_result name (jsonDumps result)])
        (fun j hj => by
          obtain ⟨n, a, r, hr, ho⟩ := h (j + 1) (Nat.succ_lt_succ hj)
          refine ⟨n, a, r, ?_, ho⟩
          rw [show i + 1 + j = i + (j + 1) by omega]
          exact hr)
      simp only [runLoop, hresp, hok]
      exact ⟨by simp [ih2.1], ih2.2⟩

/-- Claim C1, as stated by the spec: whenever the first 5 remote responses
are all tool calls, the loop with step ceiling 5 makes exactly 5 remote calls
(no 6th) and stops normally, without raising. -/
def claimC1 : Prop :=
  ∀ (O : NetOracle) (responses : Nat → RemoteMsg) (goal : String),
    (∀ i, i < 5 → isToolCallResponse (responses i) = true) →
    (run O responses goal).calls = 5 ∧
      (run O responses goal).outcome = LoopOutcome.stepLimit

/-- Claim C1 is false on the code as stated: tool dispatch errors propagate
out of the loop, so 5 tool-call responses that name an unregistered tool end
the run after 1 remote call with a raised KeyError, not with a normal stop
after 5 turns. -/
theorem c1_counterexample : ¬ claimC1 := by
  intro h
  obtain ⟨hcalls, _houtcome⟩ :=
    h trivialOracle (fun _ => RemoteMsg.function_call "bogus" PyVal.none) "goal"
      (fun _ _ => rfl)
  exact absurd hcalls (by decide)

/-- Claim C1 amended: whenever the first 5 remote responses are all tool
calls whose dispatch succeeds, the loop makes exactly 5 remote calls (no 6th)
and stops normally, without raising. -/
theorem c1_step_ceiling (O : NetOracle) (responses : Nat → RemoteMsg) (goal : String)
    (h : ∀ i, i < 5 → ∃ name args result,
      responses i = RemoteMsg.function_call name args ∧
        (invokeTool O name args).ret = Except.ok result) :
    (run O responses goal).calls = 5 ∧
      (run O responses goal).outcome = LoopOutcome.stepLimit :=
  runLoop_all_tool_success O responses 5 0 (initialMessages goal)
    (fun j hj => by simpa using h j hj)

/-- Concrete instance of c1_step_ceiling: five successful fetch_roadmap
calls, then the loop stops normally after exactly 5 remote calls. -/
theorem c1_step_ceiling_witness :
    (run trivialOracle
        (fun _ => RemoteMsg.function_call "fetch_roadmap"
          (PyVal.dict [("roadmap_url", PyVal.str "http://roadmap")])) "goal").calls = 5 ∧
      (run trivialOracle
        (fun _ => RemoteMsg.function_call "fetch_roadmap"
          (PyVal.dict [("roadmap_url", PyVal.str "http://roadmap")])) "goal").outcome =
        LoopOutcome.stepLimit :=
  c1_step_ceiling trivialOracle
    (fun _ => RemoteMsg.function_call "fetch_roadmap"
      (PyVal.dict [("roadmap_url", PyVal.str "http://roadmap")])) "goal"
    (fun _ _ =>
      ⟨"fetch_roadmap", PyVal.dict [("roadmap_url", PyVal.str "http://roadmap")],
        PyVal.list [], rfl, rfl⟩)

/-- Whether a conversation message is an assistant tool-call message. -/
def isCallMsg : Msg → Bool
  | Msg.assistant_call _ _ => true
  | _ => false

/-- Whether a conversation message is a tool-result message. -/
def isResultMsg : Msg → Bool
  | Msg.function_result _ _ => true
  | _ => false

/-- Conversations in which tool-call and tool-result messages occur only as
adjacent same-name pairs, interleaved with plain messages. -/
inductive Paired : List Msg → Prop where
  | nil : Paired []
  | plain (m : Msg) (ms : List Msg) (h1 : isCallMsg m = false)
      (h2 : isResultMsg m = false) (hp : Paired ms) : Paired (m :: ms)
  | pair (name argsJson content : String) (ms : List Msg) (hp : Paired ms) :
      Paired (Msg.assistant_call name argsJson ::
        Msg.function_result name content :: ms)

/-- Appending a same-name call/result pair keeps a conversation paired. -/
theorem Paired.append_pair {ms : List Msg} (h : Paired ms)
    (name argsJson content : String) :
    Paired (ms ++ [Msg.assistant_call name argsJson,
      Msg.function_result name content]) := by
  induction h with
  | nil => exact Paired.pair name argsJson content [] Paired.nil
  | plain m ms h1 h2 hp ih => exact Paired.plain m _ h1 h2 ih
  | pair n a c ms hp ih => exact Paired.pair n a c _ ih

/-- The pairing property as the claim states it: every assistant tool-call
message is immediately followed by a tool-result message bearing the same
tool name, and every tool-result message sits directly after its matching
tool-call message (so each call has exactly one result, directly after it). -/
def wellPaired (msgs : List Msg) : Prop :=
  (∀ (j : Nat) (name argsJson : String),
      msgs.get? j = some (Msg.assistant_call name argsJson) →
      ∃ content, msgs.get? (j + 1) = some (Msg.function_result name content)) ∧
  (∀ (j : Nat) (name content : String),
      msgs.get? j = some (Msg.function_result name content) →
      ∃ (k : Nat) (argsJson : String), j = k + 1 ∧
        msgs.get? k = some (Msg.assistant_call name argsJson))

/-- A paired conversation satisfies the index-level pairing property. -/
theorem Paired.wellPaired {ms : List Msg} (h : Paired ms) : wellPaired ms := by
  induction h with
  | nil =>
      constructor
      · intro j name argsJson hj
        simp at hj
      · intro j name content hj
        simp at hj
  | plain m ms h1 h2 hp ih =>
      constructor
      · intro j name argsJson hj
        cases j with
        | zero =>
            rw [List.get?_cons_zero] at hj
            have hm := Option.some.inj hj
            rw [hm] at h1
            simp [isCallMsg] at h1
        | succ j =>
            rw [List.get?_cons_succ] at hj
            obtain ⟨content, hc⟩ := ih.1 j name argsJson hj
            exact ⟨content, by rw [List.get?_cons_succ]; exact hc⟩
      · intro j name content hj
        cases j with
        | zero =>
            rw [List.get?_cons_zero] at hj
            have hm := Option.some.inj hj
            rw [hm] at h2
            simp [isResultMsg] at h2
        | succ j =>
            rw [List.get?_cons_succ] at hj
            obtain ⟨k, a, hk, hg⟩ := ih.2 j name content hj
            refine ⟨k + 1, a, by rw [hk], ?_⟩
            rw [List.get?_cons_succ]
            exact hg
  | pair n a c ms hp ih =>
      constructor
      · intro j name argsJson hj
        cases j with
        | zero =>
            rw [List.get?_cons_zero] at hj
            have hm := Option.some.inj hj
            rw [Msg.assistant_call.injEq] at hm
            refine ⟨c, ?_⟩
            rw [List.get?_cons_succ, List.get?_cons_zero, hm.1]
        | succ j =>
            cases j with
            | zero =>
                rw [List.get?_cons_succ, List.get?_cons_zero] at hj
                exact absurd (Option.some.inj hj) (by simp)
            | succ j =>
                rw [List.get?_cons_succ, List.get?_cons_succ] at hj
                obtain ⟨content, hc⟩ := ih.1 j name argsJson hj
                refine ⟨content, ?_⟩
                rw [List.get?_cons_succ, List.get?_cons_succ]
                exact hc
      · intro j name content hj
        cases j with
        | zero =>
            rw [List.get?_cons_zero] at hj
            exact absurd (Option.some.inj hj) (by simp)
        | succ j =>
            cases j with
            | zero =>
                rw [List.get?_cons_succ, List.get?_cons_zero] at hj
                have hm := Option.some.inj hj
                rw [Msg.function_result.injEq] at hm
                refine ⟨0, a, rfl, ?_⟩
                rw [List.get?_cons_zero, hm.1]
            | succ j =>
                rw [List.get?_cons_succ, List.get?_cons_succ] at hj
                obtain ⟨k, a2, hk, hg⟩ := ih.2 j name content hj
                refine ⟨k + 2, a2, by rw [hk], ?_⟩
                rw [List.get?_cons_succ, List.get?_cons_succ]
                exact hg

/-- The loop preserves pairing: starting from a paired conversation, the
conversation sent at every remote call, and the final conversation, are
paired. -/
theorem runLoop_traces_paired (O : NetOracle) (responses : Nat → RemoteMsg) :
    ∀ (fuel i : Nat) (msgs : List Msg), Paired msgs →
      (∀ tr ∈ (runLoop O responses fuel i msgs).traces, Paired tr) ∧
        Paired (runLoop O responses fuel i msgs).msgs := by
  intro fuel
  induction fuel with
  | zero =>
      intro i msgs hp
      refine ⟨?_, hp⟩
      intro tr htr
      simp [runLoop] at htr
  | succ fuel ih =>
      intro i msgs hp
      cases hr : responses i with
      | text c =>
          simp only [runLoop, hr]
          refine ⟨?_, hp⟩
          intro tr htr
          rw [List.mem_singleton] at htr
          exact htr ▸ hp
      | function_call name args =>
          cases hinv : (invokeTool O name args).ret with
          | error e =>
              simp only [runLoop, hr, hinv]
              refine ⟨?_, hp⟩
              intro tr htr
              rw [List.mem_singleton] at htr
              exact htr ▸ hp
          | ok result =>
              simp only [runLoop, hr, hinv]
              have hp2 := hp.append_pair name (jsonDumps args) (jsonDumps result)
              have ih2 := ih (i + 1)
                (msgs ++ [Msg.assistant_call name (jsonDumps args),
                  Msg.function_result name (jsonDumps result)]) hp2
              constructor
              · intro tr htr
                rcases List.mem_cons.mp htr with hEq | hm
                · exact hEq ▸ hp
                · exact ih2.1 tr hm
              · exact ih2.2

/-- Claim C2: in every run of the loop, every assistant tool-call message is
immediately followed by exactly one tool-result message bearing the same tool
name, and the pair is in place before the next remote call — so the
conversation sent at every remote call, and the final conversation, satisfy
the pairing property. -/
theorem c2_call_result_adjacent_pairs (O : NetOracle) (responses : Nat → RemoteMsg)
    (goal : String) :
    (∀ tr ∈ (run O responses goal).traces, wellPaired tr) ∧
      wellPaired (run O responses goal).msgs := by
  have hp : Paired (initialMessages goal) :=
    Paired.plain _ _ rfl rfl (Paired.plain _ _ rfl rfl Paired.nil)
  have h := runLoop_traces_paired O responses 5 0 (initialMessages goal) hp
  exact ⟨fun tr htr => (h.1 tr htr).wellPaired, h.2.wellPaired⟩

/-- Concrete instance of c2_call_result_adjacent_pairs: with an immediate
final response, the conversation sent at the only remote call (the seed
conversation) is well paired. -/
theorem c2_call_result_adjacent_pairs_witness :
    wellPaired (initialMessages "goal") :=
  (c2_call_result_adjacent_pairs trivialOracle (fun _ => RemoteMsg.text "done")
      "goal").1 (initialMessages "goal") (List.mem_singleton.mpr rfl)

end ProductAnalyzer
